import Mathlib

/-!
Verification of the MCP HTTP bridge (src/http_server.py, src/http_transport.py).

The bridge forwards JSON-RPC requests arriving over HTTP to a subprocess via
its stdin/stdout pipes.  We embed the handlers as pure Lean functions over an
explicit bridge state.  The behaviour of the external world (the subprocess's
pipes, the HTTP body parser) is an explicit input: a pipe read either yields a
line (which parses to a JSON value or raises), signals end-of-stream (readline
returns the empty string), or never returns (the stream stays open and silent);
a pipe write either succeeds or raises with some message.
-/

namespace MCPBridge

mutual

/-- JSON values, the payloads exchanged by the bridge. -/
inductive JValue where
  | null
  | bool (b : Bool)
  | num (n : Int)
  | str (s : String)
  | arr (elems : JList)
  | obj (fields : JFields)
  deriving DecidableEq

/-- A list of JSON values (a JSON array's elements). -/
inductive JList where
  | nil
  | cons (v : JValue) (rest : JList)
  deriving DecidableEq

/-- The fields of a JSON object, in insertion order. -/
inductive JFields where
  | nil
  | cons (k : String) (v : JValue) (rest : JFields)
  deriving DecidableEq

end

/-- Escaping of a single character inside a JSON string, as json.dumps does it
for the ASCII characters the bridge exchanges (34 = quote, 92 = backslash,
10 = LF, 9 = TAB, 13 = CR). -/
def jsonEscapeChar (c : Char) : String :=
  if c.toNat = 34 then "\\\""
  else if c.toNat = 92 then "\\\\"
  else if c.toNat = 10 then "\\n"
  else if c.toNat = 9 then "\\t"
  else if c.toNat = 13 then "\\r"
  else String.singleton c

/-- Escaping of a JSON string body, as json.dumps does it. -/
def jsonEscape (s : String) : String :=
  String.join (s.toList.map jsonEscapeChar)

mutual

/-- json.dumps with Python's default separators (", " and ": "). -/
def jsonDumps : JValue → String
  | .null => "null"
  | .bool true => "true"
  | .bool false => "false"
  | .num n => toString n
  | .str s => "\"" ++ jsonEscape s ++ "\""
  | .arr elems => "[" ++ jsonDumpsArr elems ++ "]"
  | .obj fields => "\x7b" ++ jsonDumpsObj fields ++ "\x7d"

/-- Comma-separated serialization of a JSON array's elements. -/
def jsonDumpsArr : JList → String
  | .nil => ""
  | .cons v .nil => jsonDumps v
  | .cons v (.cons w rest) => jsonDumps v ++ ", " ++ jsonDumpsArr (.cons w rest)

/-- Comma-separated serialization of a JSON object's fields. -/
def jsonDumpsObj : JFields → String
  | .nil => ""
  | .cons k v .nil => "\"" ++ jsonEscape k ++ "\": " ++ jsonDumps v
  | .cons k v (.cons l w rest) =>
      "\"" ++ jsonEscape k ++ "\": " ++ jsonDumps v ++ ", " ++
        jsonDumpsObj (.cons l w rest)

end

/-- One full line available on the subprocess's stdout, as seen by
json.loads(response_line.strip()): either it parses to a JSON value, or
parsing raises an exception whose str() is msg. -/
inductive LineContent where
  | parseable (v : JValue)
  | garbage (msg : String)
  deriving DecidableEq

/-- State of the bridge and of its subprocess pipes, as visible to
MCPHTTPBridge.handle_mcp_request:
processStarted — whether self.process is set (start_mcp_server ran);
writeError — some msg when stdin.write/flush raises with str(e) = msg;
stdinData — the strings written to the subprocess stdin so far, in order;
stdoutLines — the full lines the subprocess has produced, FIFO, not yet read;
stdoutClosed — whether stdout reached end-of-stream after those lines
(readline on an exhausted open stream blocks forever; on a closed one it
returns the empty string). -/
structure BridgeState where
  processStarted : Bool
  writeError : Option String
  stdinData : List String
  stdoutLines : List LineContent
  stdoutClosed : Bool
  deriving DecidableEq

/-- Outcome of one call of an async handler: it returns a JSON value, or it
never returns (blocked forever on a read that can never complete). -/
inductive HandleResult where
  | value (v : JValue)
  | hangs
  deriving DecidableEq

/-- The error payload dict the handlers build: one field "error". -/
def errorObj (msg : String) : JValue := .obj (.cons "error" (.str msg) .nil)

/-- The exact string handle_mcp_request writes for a request:
request_json = json.dumps(request) + "\\n" — note that the Python source
contains the escape for a backslash followed by the letter n, not a newline. -/
def sentLine (request : JValue) : String := jsonDumps request ++ "\\n"

/-- MCPHTTPBridge.handle_mcp_request (src/http_server.py lines 41-63):
if no process, return the not-started error; otherwise write the request line
(an exception is caught and returned as an error payload), then readline once
from stdout: a line parses (returned as-is) or raises (error payload); the
empty string (closed stream) gives the no-response error; an open silent
stream blocks readline forever. -/
def handle_mcp_request (st : BridgeState) (request : JValue) :
    HandleResult × BridgeState :=
  if st.processStarted = false then
    (.value (errorObj "MCP server not started"), st)
  else
    match st.writeError with
    | some msg => (.value (errorObj msg), st)
    | none =>
      let st1 : BridgeState :=
        ⟨st.processStarted, st.writeError, st.stdinData ++ [sentLine request],
          st.stdoutLines, st.stdoutClosed⟩
      match st.stdoutLines with
      | c :: rest =>
        let st2 : BridgeState :=
          ⟨st1.processStarted, st1.writeError, st1.stdinData, rest, st1.stdoutClosed⟩
        match c with
        | .parseable v => (.value v, st2)
        | .garbage msg => (.value (errorObj msg), st2)
      | [] =>
        if st.stdoutClosed then
          (.value (errorObj "No response from MCP server"), st1)
        else
          (.hangs, st1)

/-- Outcome of await request.json() in the POST /mcp route: the body parses to
a JSON value, or parsing raises with str(e) = msg. -/
inductive BodyParse where
  | ok (v : JValue)
  | fail (msg : String)

/-- The POST /mcp route handle_jsonrpc (src/http_transport.py lines 54-66):
parse the body (a parse exception is caught and returned as an error payload);
if a handler is configured, delegate to it, else return the not-configured
error. -/
def handle_jsonrpc (mcp_handler : Option (JValue → HandleResult))
    (body : BodyParse) : HandleResult :=
  match body with
  | .fail msg => .value (errorObj msg)
  | .ok b =>
    match mcp_handler with
    | some h => h b
    | none => .value (errorObj "MCP handler not configured")

/-- The observable states of the wrapped subprocess. -/
inductive SubprocessState where
  | neverStarted
  | running
  | stopped
  | crashed
  deriving DecidableEq

/-- GET /health route health_check (src/http_transport.py lines 94-97): the
route body references no subprocess state, so we model it as a function of the
subprocess state that in fact ignores it. -/
def health_check (_s : SubprocessState) : JValue :=
  .obj (.cons "status" (.str "healthy") (.cons "transport" (.str "http") .nil))

/-- The hard-coded heartbeat period of the SSE stream, in seconds
(asyncio.sleep(30) in handle_sse_stream). -/
def heartbeatInterval : Nat := 30

/-- The heartbeat JSON payload emitted at elapsed time t (seconds since the
connection opened; the event-loop clock origin is taken at connection open). -/
def heartbeatEvent (t : Nat) : JValue :=
  .obj (.cons "type" (.str "heartbeat") (.cons "timestamp" (.num (Int.ofNat t)) .nil))

/-- One SSE wire line: "data: " then the JSON payload then a blank line. -/
def sseLine (t : Nat) : String :=
  "data: " ++ jsonDumps (heartbeatEvent t) ++ "\n\n"

/-- Exceptions relevant to the stream generator. -/
inductive PyExc where
  | cancelledError
  deriving DecidableEq

/-- Clean generator return versus an exception escaping to the transport. -/
inductive StreamTermination where
  | clean
  | err (e : PyExc)
  deriving DecidableEq

/-- The while-True body of event_stream in handle_sse_stream: each iteration
yields one heartbeat line then awaits asyncio.sleep(heartbeatInterval).
survivedSleeps is the number of sleeps that complete before the client
disconnect cancels the pending sleep, which raises CancelledError inside the
loop.  Returns the (elapsed time, line) events yielded, in order, and the
exception that ended the loop. -/
def event_stream_loop : Nat → Nat → List (Nat × String) × PyExc
  | 0, t => ([(t, sseLine t)], .cancelledError)
  | n + 1, t =>
    let r := event_stream_loop n (t + heartbeatInterval)
    ((t, sseLine t) :: r.1, r.2)

/-- The except-CancelledError clause of the event_stream generator: the
exception ending the loop is caught and mapped to a clean return. -/
def onCancelled : PyExc → StreamTermination
  | .cancelledError => .clean

/-- The event_stream generator of handle_sse_stream (src/http_transport.py
lines 71-83): the loop runs until cancelled, and the exception ending it goes
through the except clause, so the generator returns cleanly. -/
def event_stream (survivedSleeps : Nat) :
    List (Nat × String) × StreamTermination :=
  ((event_stream_loop survivedSleeps 0).1,
    onCancelled (event_stream_loop survivedSleeps 0).2)

/-- The two externally visible steps of MCPHTTPBridge.start, in the order they
happen. -/
inductive StartEvent where
  | mcpServerStarted
  | httpTransportStarted
  deriving DecidableEq

/-- The environment of a bridge startup: whether subprocess.Popen succeeds or
raises with str(e) = the given message. -/
structure BridgeInit where
  popen : Except String Unit

/-- MCPHTTPBridge.start_mcp_server (src/http_server.py lines 26-39): Popen
succeeds and the process is stored, or the exception is logged and re-raised. -/
def start_mcp_server (init : BridgeInit) : Except String Unit :=
  match init.popen with
  | .ok _ => .ok ()
  | .error e => .error e

/-- MCPHTTPBridge.start (src/http_server.py lines 76-79): await
start_mcp_server, then await start_http_transport.  Returns the trace of
completed startup steps and the fatal error, if any: an exception from
start_mcp_server propagates, so the transport step never runs. -/
def start (init : BridgeInit) : List StartEvent × Option String :=
  match start_mcp_server init with
  | .error e => ([], some e)
  | .ok _ => ([StartEvent.mcpServerStarted, StartEvent.httpTransportStarted], none)

/-- Lookup of a key among a JSON object's fields. -/
def fieldLookup (k : String) : JFields → Option JValue
  | .nil => none
  | .cons l v rest => if l = k then some v else fieldLookup k rest

/-- The "id" field of a JSON object, if any. -/
def getId (v : JValue) : Option JValue :=
  match v with
  | .obj fields => fieldLookup "id" fields
  | _ => none

/-- Whether a JSON value is an object (a Python dict). -/
def isObj : JValue → Bool
  | .obj _ => true
  | _ => false

/-- The HandleResult produced by reading one given stdout line. -/
def lineResult : LineContent → HandleResult
  | .parseable v => .value v
  | .garbage msg => .value (errorObj msg)

/-- Request with id 1. -/
def request1 : JValue := .obj (.cons "id" (.num 1) (.cons "method" (.str "ping") .nil))

/-- Request with id 2. -/
def request2 : JValue := .obj (.cons "id" (.num 2) (.cons "method" (.str "ping") .nil))

/-- Reply carrying id 1. -/
def reply1 : JValue := .obj (.cons "id" (.num 1) (.cons "result" (.str "pong1") .nil))

/-- Reply carrying id 2. -/
def reply2 : JValue := .obj (.cons "id" (.num 2) (.cons "result" (.str "pong2") .nil))

/-- Running bridge whose subprocess wrote the reply for id 2 before the reply
for id 1. -/
def stReordered : BridgeState :=
  ⟨true, none, [], [.parseable reply2, .parseable reply1], false⟩

/-- Running bridge whose subprocess closed stdout without producing any reply
line (crashed subprocess). -/
def stCrashed : BridgeState := ⟨true, none, [], [], true⟩

/-- Running bridge whose subprocess keeps stdout open but writes nothing. -/
def stSilent : BridgeState := ⟨true, none, [], [], false⟩

/-- Bridge on which start_mcp_server never ran: self.process is None. -/
def stNotStarted : BridgeState := ⟨false, none, [], [], false⟩

/-- Running bridge whose subprocess replies with the bare JSON number 42. -/
def stNumReply : BridgeState :=
  ⟨true, none, [], [.parseable (JValue.num 42)], false⟩

/-- Startup environment in which Popen succeeds. -/
def initOk : BridgeInit := ⟨Except.ok ()⟩

/- ------------------------------------------------------------------ -/
/- Theorems -/
/- ------------------------------------------------------------------ -/

theorem onCancelled_clean (e : PyExc) : onCancelled e = StreamTermination.clean := by
  cases e; rfl

theorem event_stream_loop_head (n t : Nat) :
    ∃ tl, (event_stream_loop n t).1 = (t, sseLine t) :: tl := by
  cases n with
  | zero => exact ⟨[], rfl⟩
  | succ k => exact ⟨(event_stream_loop k (t + heartbeatInterval)).1, rfl⟩

/-- C1 counterexample: with the subprocess having written the reply carrying
id 2 before the reply carrying id 1, the caller that submitted the request
with id 1 reads the first available line and receives the reply carrying id 2,
and the second caller receives the reply carrying id 1 — so a caller does not
receive the reply whose id matches its own request. -/
theorem C1_counterexample :
    (handle_mcp_request stReordered request1).1 = HandleResult.value reply2 ∧
    (handle_mcp_request (handle_mcp_request stReordered request1).2 request2).1 =
      HandleResult.value reply1 ∧
    getId request1 = some (JValue.num 1) ∧
    getId reply2 = some (JValue.num 2) :=
  ⟨rfl, rfl, rfl, rfl⟩

/-- C1 amended: handle_mcp_request performs no id correlation: each call
consumes the next unread stdout line in the order the reads execute, so two
outstanding requests receive the first and second pipe lines respectively,
whatever ids those lines carry.  Each caller receives its matching reply only
when the subprocess writes replies in the order the requests are read. -/
theorem C1_fifo_delivery (st : BridgeState) (r1 r2 : JValue) (c1 c2 : LineContent)
    (rest : List LineContent)
    (hp : st.processStarted = true) (hw : st.writeError = none)
    (hl : st.stdoutLines = c1 :: c2 :: rest) :
    (handle_mcp_request st r1).1 = lineResult c1 ∧
    (handle_mcp_request (handle_mcp_request st r1).2 r2).1 = lineResult c2 := by
  cases c1 <;> cases c2 <;>
    simp [handle_mcp_request, lineResult, hp, hw, hl]

/-- C1 witness: the FIFO delivery theorem applied to the reordered pipe. -/
theorem C1_fifo_delivery_witness :
    (handle_mcp_request stReordered request2).1 =
      lineResult (LineContent.parseable reply2) ∧
    (handle_mcp_request (handle_mcp_request stReordered request2).2 request1).1 =
      lineResult (LineContent.parseable reply1) :=
  C1_fifo_delivery stReordered request2 request1 (LineContent.parseable reply2)
    (LineContent.parseable reply1) [] rfl rfl rfl

/-- C2: code bug — for the request with id 1, the bytes the handler writes to
the subprocess stdin are the JSON serialization followed by the two-character
sequence backslash, letter n (the Python source reads
json.dumps(request) + "\\n", an escaped backslash), not by a newline
character as the spec's framing contract requires. -/
theorem C2_sent_bytes_bug :
    (handle_mcp_request stCrashed request1).2.stdinData = [sentLine request1] ∧
    sentLine request1 = jsonDumps request1 ++ "\\" ++ "n" ∧
    sentLine request1 ≠ jsonDumps request1 ++ "\n" := by
  refine ⟨rfl, by decide, by decide⟩

/-- C3 counterexample: the code has no timeout at all — when the subprocess
keeps stdout open but never writes a reply line, handle_mcp_request blocks
forever on readline, so the request yields neither a reply nor a JSON error
object within any configured timeout. -/
theorem C3_counterexample :
    (handle_mcp_request stSilent request1).1 = HandleResult.hangs := rfl

/-- C3 amended: no timeout exists in the code.  A request that receives no
reply hangs indefinitely while the subprocess keeps stdout open; only when
stdout closes does it return the error payload
with message "No response from MCP server" (not a timeout error). -/
theorem C3_no_timeout (st : BridgeState) (r : JValue)
    (hp : st.processStarted = true) (hw : st.writeError = none)
    (hl : st.stdoutLines = []) :
    (st.stdoutClosed = false → (handle_mcp_request st r).1 = HandleResult.hangs) ∧
    (st.stdoutClosed = true →
      (handle_mcp_request st r).1 =
        HandleResult.value (errorObj "No response from MCP server")) := by
  constructor <;> intro hc <;> simp [handle_mcp_request, hp, hw, hl, hc]

/-- C3 witness: the no-timeout theorem applied to the closed-stdout state. -/
theorem C3_no_timeout_witness :
    (handle_mcp_request stCrashed request1).1 =
      HandleResult.value (errorObj "No response from MCP server") :=
  (C3_no_timeout stCrashed request1 rfl rfl rfl).2 rfl

/-- C4 counterexample: with no subprocess started, the handler's payload is
not the object with message "mcp server not started" — the code's message is
capitalized differently ("MCP server not started"). -/
theorem C4_counterexample :
    (handle_mcp_request stNotStarted request1).1 ≠
      HandleResult.value (errorObj "mcp server not started") := by
  decide

/-- C4 amended: for every request submitted while no subprocess has been
started, the handler immediately returns the error payload with message
"MCP server not started" (capital MCP), and in particular does not hang. -/
theorem C4_not_started (st : BridgeState) (r : JValue)
    (hp : st.processStarted = false) :
    (handle_mcp_request st r).1 =
      HandleResult.value (errorObj "MCP server not started") := by
  simp [handle_mcp_request, hp]

/-- C4 witness: the not-started theorem applied to the never-started bridge. -/
theorem C4_not_started_witness :
    (handle_mcp_request stNotStarted request1).1 =
      HandleResult.value (errorObj "MCP server not started") :=
  C4_not_started stNotStarted request1 rfl

/-- C5 counterexample: with the subprocess crashed (stdout closed, no reply
line), the handler returns the error payload with message
"No response from MCP server", not the claimed "mcp server not running". -/
theorem C5_counterexample :
    (handle_mcp_request stCrashed request1).1 =
      HandleResult.value (errorObj "No response from MCP server") ∧
    (handle_mcp_request stCrashed request1).1 ≠
      HandleResult.value (errorObj "mcp server not running") :=
  ⟨rfl, by decide⟩

/-- C5 amended: when the subprocess has crashed — its stdout stream is closed
and no reply line is produced for the pending request — the handler returns
the error payload with message "No response from MCP server". -/
theorem C5_crashed_payload (st : BridgeState) (r : JValue)
    (hp : st.processStarted = true) (hw : st.writeError = none)
    (hl : st.stdoutLines = []) (hc : st.stdoutClosed = true) :
    (handle_mcp_request st r).1 =
      HandleResult.value (errorObj "No response from MCP server") := by
  simp [handle_mcp_request, hp, hw, hl, hc]

/-- C5 witness: the crashed-payload theorem applied to the crashed state. -/
theorem C5_crashed_payload_witness :
    (handle_mcp_request stCrashed request2).1 =
      HandleResult.value (errorObj "No response from MCP server") :=
  C5_crashed_payload stCrashed request2 rfl rfl rfl rfl

/-- C6: GET /health returns exactly the static payload with status "healthy"
and transport "http" for every state of the subprocess — running, stopped,
crashed or never started. -/
theorem C6_health_static (s : SubprocessState) :
    health_check s =
      JValue.obj (.cons "status" (.str "healthy")
        (.cons "transport" (.str "http") .nil)) := rfl

/-- C7: for every open stream connection — whatever the number of heartbeat
periods the client stays connected — the stream emits an event within
heartbeatInterval + 1 seconds of connection open (the first heartbeat is
yielded immediately, at elapsed time 0), and when the client disconnect
cancels the pending sleep the generator terminates cleanly, raising no error
to the transport layer. -/
theorem C7_heartbeat_and_clean_termination (survivedSleeps : Nat) :
    (∃ e ∈ (event_stream survivedSleeps).1, e.1 ≤ heartbeatInterval + 1) ∧
    (event_stream survivedSleeps).2 = StreamTermination.clean := by
  obtain ⟨tl, htl⟩ := event_stream_loop_head survivedSleeps 0
  constructor
  · refine ⟨(0, sseLine 0), ?_, ?_⟩
    · show (0, sseLine 0) ∈ (event_stream_loop survivedSleeps 0).1
      rw [htl]
      exact List.mem_cons_self _ _
    · norm_num
  · exact onCancelled_clean ((event_stream_loop survivedSleeps 0).2)

/-- C8: during bridge startup the subprocess launch step runs first: whenever
the HTTP transport step is reached, the launch completed successfully and both
steps appear in launch-then-transport order; and when Popen raises, startup
aborts with that error and the transport step never runs. -/
theorem C8_startup_order (init : BridgeInit) :
    (StartEvent.httpTransportStarted ∈ (start init).1 →
      (start init).1 =
        [StartEvent.mcpServerStarted, StartEvent.httpTransportStarted] ∧
      (start init).2 = none ∧ init.popen = Except.ok ()) ∧
    (∀ e, init.popen = Except.error e →
      (start init).1 = [] ∧ (start init).2 = some e) := by
  obtain ⟨p⟩ := init
  cases p with
  | ok u =>
    cases u
    constructor
    · intro _
      exact ⟨rfl, rfl, rfl⟩
    · intro e he
      simp [start, start_mcp_server] at he
  | error e =>
    constructor
    · intro hmem
      simp [start, start_mcp_server] at hmem
    · intro f hf
      injection hf with h
      subst h
      exact ⟨rfl, rfl⟩

/-- C8 witness: the startup-order theorem applied to a successful launch. -/
theorem C8_startup_order_witness :
    (start initOk).1 =
      [StartEvent.mcpServerStarted, StartEvent.httpTransportStarted] ∧
    (start initOk).2 = none ∧ initOk.popen = Except.ok () :=
  (C8_startup_order initOk).1 (by decide)

/-- C9 counterexample: a POST /mcp request whose body does not parse as JSON,
arriving before any handler is set, returns the error payload carrying the
parse exception's message, not "MCP handler not configured". -/
theorem C9_counterexample :
    handle_jsonrpc none (BodyParse.fail "Expecting value") =
      HandleResult.value (errorObj "Expecting value") ∧
    handle_jsonrpc none (BodyParse.fail "Expecting value") ≠
      HandleResult.value (errorObj "MCP handler not configured") :=
  ⟨rfl, by decide⟩

/-- C9 amended: before any handler is set, a request whose body parses as JSON
returns the error payload "MCP handler not configured"; a request whose body
fails to parse returns the error payload carrying the parse exception's
message.  Neither raises nor hangs. -/
theorem C9_handler_not_configured (v : JValue) (m : String) :
    handle_jsonrpc none (BodyParse.ok v) =
      HandleResult.value (errorObj "MCP handler not configured") ∧
    handle_jsonrpc none (BodyParse.fail m) = HandleResult.value (errorObj m) :=
  ⟨rfl, rfl⟩

/-- C10 counterexample: when the subprocess replies with the bare JSON number
42, the handler returns that number unchanged — a value that is not a
dictionary — so the claim that the handler always returns a dictionary fails. -/
theorem C10_counterexample :
    (handle_mcp_request stNumReply request1).1 = HandleResult.value (JValue.num 42) ∧
    isObj (JValue.num 42) = false :=
  ⟨rfl, rfl⟩

/-- C10 amended: no exception escapes handle_mcp_request: for every request
and every pipe behaviour other than an endlessly silent open stdout (on which
the call blocks forever rather than raising), the handler returns a value that
is either the parsed reply JSON value — not necessarily a dictionary — or an
object with an "error" key. -/
theorem C10_total_no_raise (st : BridgeState) (r : JValue)
    (h : st.processStarted = false ∨ st.writeError ≠ none ∨
      st.stdoutLines ≠ [] ∨ st.stdoutClosed = true) :
    ∃ v, (handle_mcp_request st r).1 = HandleResult.value v ∧
      ((∃ rest, st.stdoutLines = LineContent.parseable v :: rest) ∨
        ∃ msg, v = errorObj msg) := by
  cases hp : st.processStarted with
  | false =>
    exact ⟨errorObj "MCP server not started",
      by simp [handle_mcp_request, hp], Or.inr ⟨_, rfl⟩⟩
  | true =>
    cases hw : st.writeError with
    | some msg =>
      exact ⟨errorObj msg, by simp [handle_mcp_request, hp, hw], Or.inr ⟨_, rfl⟩⟩
    | none =>
      cases hl : st.stdoutLines with
      | cons c rest =>
        cases c with
        | parseable v =>
          exact ⟨v, by simp [handle_mcp_request, hp, hw, hl],
            Or.inl ⟨rest, rfl⟩⟩
        | garbage msg =>
          exact ⟨errorObj msg, by simp [handle_mcp_request, hp, hw, hl],
            Or.inr ⟨_, rfl⟩⟩
      | nil =>
        have hc : st.stdoutClosed = true := by
          rcases h with h1 | h2 | h3 | h4

          · rw [hp] at h1; cases h1
          · exact absurd hw h2
          · exact absurd hl h3
          · exact h4
        exact ⟨errorObj "No response from MCP server",
          by simp [handle_mcp_request, hp, hw, hl, hc], Or.inr ⟨_, rfl⟩⟩

/-- C10 witness: the totality theorem applied to the bare-number reply. -/
theorem C10_total_no_raise_witness :
    ∃ v, (handle_mcp_request stNumReply request2).1 = HandleResult.value v ∧
      ((∃ rest, stNumReply.stdoutLines = LineContent.parseable v :: rest) ∨
        ∃ msg, v = errorObj msg) :=
  C10_total_no_raise stNumReply request2 (Or.inr (Or.inr (Or.inl (by decide))))

end MCPBridge
